import Mathlib

/-!
Verification development for the ScreenScrapper capture→dispatch→aggregate→deliver
pipeline.  The Python sources (`core_loop.py`, `ai_clients.py`, `screen_utils.py`,
`output_utils.py`, `main.py`) are shallowly embedded below: pure string and numeric
computations become Lean functions, the asyncio results queue becomes an explicit
`List ResultRecord` that callbacks append to, task completion becomes an explicit
`TaskOutcome`, and wall-clock quantities become rationals.  Python `str` truthiness,
`strip`, substring `in`, and slicing are modelled on `List Char` so that every
definition is executable by the kernel.
-/

namespace ScreenScrapper

/-! ### Python string primitives -/

/-- Both-ends whitespace strip on the character list, modelling Python `str.strip()`
(restricted to the ASCII whitespace that occurs in this program's data). -/
def trimChars (l : List Char) : List Char :=
  ((l.dropWhile Char.isWhitespace).reverse.dropWhile Char.isWhitespace).reverse

/-- Python `s.strip()`. -/
def pyStrip (s : String) : String :=
  String.mk (trimChars s.data)

/-- Substring containment on character lists: `containsSubList pat l` is true iff
`pat` occurs contiguously inside `l`, modelling Python `pat in l`. -/
def containsSubList (pat : List Char) : List Char → Bool
  | [] => pat.isEmpty
  | c :: rest => pat.isPrefixOf (c :: rest) || containsSubList pat rest

/-- Python `pat in s` for strings. -/
def pyContains (pat s : String) : Bool :=
  containsSubList pat.data s.data

/-- Python truthiness of a `str`: true iff non-empty. -/
def pyTruthy (s : String) : Bool :=
  !s.data.isEmpty

/-- Python slice `s[:n]` (by code points). -/
def pyTake (n : Nat) (s : String) : String :=
  String.mk (s.data.take n)

/-! ### screen_utils.py -/

/-- Split a character list at newline characters, modelling `str.splitlines()` for
the `\n`-separated text this program handles. -/
def splitOnNl : List Char → List (List Char)
  | [] => [[]]
  | c :: rest =>
    if c = '\n' then [] :: splitOnNl rest
    else
      match splitOnNl rest with
      | [] => [[c]]
      | l :: ls => (c :: l) :: ls

/-- Outcome of the `mss` grab + `pytesseract` OCR inside `capture_and_ocr`:
either OCR produced raw text, or an exception was raised with message `errMsg`
(the `FileNotFoundError` branch composes its own message and flows through the
same `"OCR Error: " ++ msg` shape). -/
inductive CaptureRaw where
  | ok (ocrText : String)
  | err (errMsg : String)

/-- Tag that `process_capture` searches for to detect a capture error
(`"OCR Error" in scraped_text`). -/
def OCR_ERROR_TAG : String := "OCR Error"

/-- Head of every error string returned by `capture_and_ocr`
(`return f"OCR Error: {e}"`). -/
def OCR_ERROR_MARK : String := "OCR Error: "

/-- Cleanup in `screen_utils.capture_and_ocr`: strip, drop whitespace-only lines,
re-join with newlines, strip again. -/
def clean_ocr_text (t : String) : String :=
  String.mk (trimChars (List.intercalate ['\n']
    ((splitOnNl (trimChars t.data)).filter (fun l => !(trimChars l).isEmpty))))

/-- `screen_utils.capture_and_ocr`: on success returns the cleaned OCR text; on any
exception returns an error string headed by `OCR Error: `. -/
def capture_and_ocr : CaptureRaw → String
  | .ok t => clean_ocr_text t
  | .err e => OCR_ERROR_MARK ++ e

/-! ### ai_clients.py -/

/-- Sentinel the exam prompt instructs the model to emit when no question is found. -/
def NO_QUESTION_SENTINEL : String := "NO_QUESTION_DETECTED"

/-- Message substituted for the sentinel by `get_gemini_response`. -/
def GEMINI_NO_QUESTION_MSG : String := "Gemini: No question found in this snippet."

/-- Head prepended to a real answer by `get_gemini_response`. -/
def GEMINI_ANSWER_HEAD : String := "Gemini Answer:\n"

/-- Returned when `GOOGLE_API_KEY` is missing. -/
def GEMINI_KEY_MISSING_MSG : String := "Gemini Error: API key not configured."

/-- Head of the message for a response with no text candidates. -/
def GEMINI_NO_CANDIDATES_HEAD : String :=
  "Gemini Error: No text content found in API response. Raw response snippet: "

/-- Returned when the prompt is blocked by safety filters. -/
def GEMINI_BLOCKED_MSG : String := "Gemini Error: Prompt blocked by safety filters."

/-- Returned when `asyncio.wait_for` raises `TimeoutError`. -/
def GEMINI_TIMEOUT_MSG : String :=
  "Gemini Error: Request timed out. Consider increasing timeout or simplifying task."

/-- Head of the generic exception message `f"Gemini Error: {type(e).__name__}: {e}"`. -/
def GEMINI_ERROR_HEAD : String := "Gemini Error: "

/-- The timeout passed to `asyncio.wait_for` around `generate_content_async`. -/
def gemini_timeout_seconds : ℚ := 45

/-- How the awaited Gemini API call can resolve, as observed by
`get_gemini_response`: a response with text candidates (carrying the joined part
texts), a response without candidates (carrying `str(response)`), a safety block,
a timeout, or any other raised exception (type name and message). -/
inductive GeminiApi where
  | candidates (joinedPartsText : String)
  | noCandidates (rawResponseStr : String)
  | blockedPrompt
  | timedOut
  | raised (typeName msg : String)

/-- `ai_clients.get_gemini_response`: the returned string as a function of whether
the API key is configured and how the API call resolved. -/
def get_gemini_response (keyConfigured : Bool) (api : GeminiApi) : String :=
  if !keyConfigured then GEMINI_KEY_MISSING_MSG
  else
    match api with
    | .candidates joined =>
      let response_text := pyStrip joined
      if response_text = NO_QUESTION_SENTINEL then GEMINI_NO_QUESTION_MSG
      else GEMINI_ANSWER_HEAD ++ response_text
    | .noCandidates raw => GEMINI_NO_CANDIDATES_HEAD ++ pyTake 100 raw
    | .blockedPrompt => GEMINI_BLOCKED_MSG
    | .timedOut => GEMINI_TIMEOUT_MSG
    | .raised tyName msg => GEMINI_ERROR_HEAD ++ tyName ++ ": " ++ msg

/-- Keys of the `AI_CLIENTS` mapping in `ai_clients.py`. -/
def AI_CLIENTS_names : List String := ["gemini", "chatgpt", "perplexity"]

/-! ### core_loop.py: records, completion callback, dispatch -/

/-- One `(capture_id, model_name, response_text)` tuple placed on the results
queue. -/
structure ResultRecord where
  captureId : String
  providerId : String
  text : String
  deriving DecidableEq

/-- How an awaited provider task resolves, as observed by `task.result()` inside
`handle_ai_response`: a returned string, or a raised exception with message text. -/
inductive TaskOutcome where
  | success (responseText : String)
  | failure (errText : String)
  deriving DecidableEq

/-- Separator in the error record built by `handle_ai_response`
(`f"{model_name} Task Error: {e}"`). -/
def TASK_ERROR_SEP : String := " Task Error: "

/-- `core_loop.handle_ai_response`: the done-callback of one provider task.  On
success it enqueues the result text; on exception it enqueues an error message.
The unbounded `asyncio.Queue.put_nowait` is modelled as appending to the list. -/
def handle_ai_response (model_name capture_id : String)
    (results_queue : List ResultRecord) (task : TaskOutcome) : List ResultRecord :=
  match task with
  | .success response_text => results_queue ++ [⟨capture_id, model_name, response_text⟩]
  | .failure e => results_queue ++ [⟨capture_id, model_name, model_name ++ TASK_ERROR_SEP ++ e⟩]

/-- The single record that `handle_ai_response` enqueues for one completed task. -/
def mkRecord (model_name capture_id : String) (task : TaskOutcome) : ResultRecord :=
  match task with
  | .success response_text => ⟨capture_id, model_name, response_text⟩
  | .failure e => ⟨capture_id, model_name, model_name ++ TASK_ERROR_SEP ++ e⟩

/-- Dispatch loop at the bottom of `process_capture`: walk `models_to_use`; a name
present in `AI_CLIENTS` gets a task (first component, in order); an unknown name
only gets a warning printed (second component collects the warned names). -/
def dispatchLoop : List String → List String × List String
  | [] => ([], [])
  | m :: rest =>
    let r := dispatchLoop rest
    if AI_CLIENTS_names.contains m then (m :: r.1, r.2) else (r.1, m :: r.2)

/-- Eventual contents of the results queue contributed by one tick: every started
invocation completes with `outcome` and its done-callback appends one record. -/
def enqueue_results (capture_id : String) (invocations : List String)
    (outcome : String → TaskOutcome) (q : List ResultRecord) : List ResultRecord :=
  invocations.foldl (fun acc m => handle_ai_response m capture_id acc (outcome m)) q

/-- The guard in `process_capture`:
`if not scraped_text or "OCR Error" in scraped_text`. -/
def skip_condition (scraped_text : String) : Bool :=
  !pyTruthy scraped_text || pyContains OCR_ERROR_TAG scraped_text

/-- Text stored in place of a falsy sample
(`scraped_text if scraped_text else "Empty Capture"`). -/
def EMPTY_CAPTURE_TEXT : String := "Empty Capture"

/-- Observable effects of one `process_capture` cycle: the entry written to the
`capture_scraped_text` table, the pair passed to `log_scraped_text`, the provider
names for which a task was started, and the unknown names that were only warned
about. -/
structure TickEffects where
  storedSample : String × String
  loggedSample : String × String
  invocations : List String
  unknownWarned : List String
  deriving DecidableEq

/-- `core_loop.process_capture` after the sample is obtained: on an empty or
error-marked sample it stores and logs the (possibly substituted) sample and
starts no tasks; otherwise it stores, logs, and dispatches to every known
client among `models_to_use`. -/
def process_capture (capture_id : String) (models_to_use : List String)
    (scraped_text : String) : TickEffects :=
  if skip_condition scraped_text then
    let t := if pyTruthy scraped_text then scraped_text else EMPTY_CAPTURE_TEXT
    ⟨(capture_id, t), (capture_id, t), [], []⟩
  else
    ⟨(capture_id, scraped_text), (capture_id, scraped_text),
      (dispatchLoop models_to_use).1, (dispatchLoop models_to_use).2⟩

/-! ### core_loop.py: capture id minting -/

/-- Fixed-width zero-padded decimal rendering, most significant digit first.
`padDigits w n` is the `w`-character rendering of `n < 10 ^ w`; it models
`datetime.now().strftime("%Y%m%d%H%M%S")` when `w = 14` and `n` is the
14-digit numeral `YYYYMMDDHHMMSS` of the tick's wall-clock time. -/
def padDigits : Nat → Nat → List Char
  | 0, _ => []
  | w + 1, n => Nat.digitChar (n / 10 ^ w) :: padDigits w (n % 10 ^ w)

/-- Python `f"{n:03d}"`: decimal digits of `n` left-padded with zeros to width at
least 3. -/
def percent03d (n : Nat) : List Char :=
  List.replicate (3 - (Nat.toDigits 10 n).length) '0' ++ Nat.toDigits 10 n

/-- Capture id minted at the top of `process_capture`:
`datetime.now().strftime("%Y%m%d%H%M%S") + f"_{capture_counter:03d}"`. -/
def mintCaptureId (tsNum : Nat) (capture_counter : Nat) : String :=
  String.mk (padDigits 14 tsNum ++ '_' :: percent03d capture_counter)

/-! ### core_loop.py: loop scheduling -/

/-- `sleep_duration = max(0, interval - elapsed_time)` in `run_capture_loop`. -/
def sleep_duration (interval elapsed : ℚ) : ℚ :=
  max 0 (interval - elapsed)

/-- Whether the overrun warning is printed: the `else` branch of
`if sleep_duration > 0`. -/
def overrun_warned (interval elapsed : ℚ) : Bool :=
  if sleep_duration interval elapsed > 0 then false else true

/-- One `(sleep, warned)` pair per loop iteration: each iteration processes
exactly one capture and then sleeps once — there is no catch-up queue. -/
def capture_loop_trace (interval : ℚ) (elapsedTimes : List ℚ) : List (ℚ × Bool) :=
  elapsedTimes.map (fun e => (sleep_duration interval e, overrun_warned interval e))

/-! ### output_utils.py -/

/-- Block built by `log_scraped_text` for one capture cycle. -/
def log_scraped_text_entry (capture_id timestamp scraped_text : String) : String :=
  "\n--- Capture ID: " ++ capture_id ++ " (" ++ timestamp ++ ") ---\n"
    ++ "Scraped Text:\n" ++ scraped_text ++ "\n" ++ "--- Responses ---"

/-- Block built by `log_response` for one delivered result. -/
def log_response_entry (source response_text : String) : String :=
  "\nResponse from " ++ source ++ ":\n" ++ response_text ++ "\n---\n"

/-- Appending an entry to the log file (`open(LOG_FILE, 'a')` followed by
`f.write(entry)`), as a function on the file's contents. -/
def append_log (content entry : String) : String :=
  content ++ entry

/-- Format the specification claims for one delivered result record: exactly
`Response from <providerId>:\n<text>\n---\n`.  Stated from the spec's words, for
comparison with `log_response_entry`. -/
def spec_claimed_response_entry (providerId text : String) : String :=
  "Response from " ++ providerId ++ ":\n" ++ text ++ "\n---\n"

/-- Block the specification claims for one capture cycle: the delimiter line
followed directly by the sample text and then the responses marker.  Stated from
the spec's words, for comparison with `log_scraped_text_entry`. -/
def spec_claimed_scraped_block (capture_id timestamp scraped_text : String) : String :=
  "--- Capture ID: " ++ capture_id ++ " (" ++ timestamp ++ ") ---" ++ "\n"
    ++ scraped_text ++ "\n" ++ "--- Responses ---"

/-! ### main.py: region selection -/

/-- The `{'top': .., 'left': .., 'width': .., 'height': ..}` dictionary. -/
structure Region where
  top : Int
  left : Int
  width : Int
  height : Int
  deriving DecidableEq

/-- Region normalization in `main.get_screen_region` from the two click points
`(x1, y1)` then `(x2, y2)`. -/
def get_screen_region (x1 y1 x2 y2 : Int) : Region :=
  let left := min x1 x2
  let top := min y1 y2
  let width := |x2 - x1|
  let height := |y2 - y1|
  let width2 := max 1 width
  let height2 := max 1 height
  ⟨top, left, width2, height2⟩

/-! ### core_loop.py: result consumer -/

/-- Sink configuration fixed at startup. -/
structure SinkConfig where
  notify_enabled : Bool
  email_enabled : Bool
  email_recipient : String

/-- Failure environment for the fallible sinks while one record is delivered:
whether the log-file write raises (caught inside `log_response`) and whether the
notifier raises (caught inside `send_notification`), with the exception texts. -/
structure SinkFaults where
  logWriteFails : Bool
  logWriteErr : String
  notifyFails : Bool
  notifyErr : String

/-- Side effects the consumer can produce for one record.  A `...Printed` event
is the console line printed by the `except` handler inside the corresponding
sink function; `emailTaskSpawned` is the detached `asyncio.create_task` for
`send_email` (whose own failure is caught inside `send_email`). -/
inductive SinkEvent where
  | consoleEcho (source text : String)
  | logWrite (entry : String)
  | logWriteErrorPrinted (source errMsg : String)
  | notifySent (title message : String)
  | notifyErrorPrinted (errMsg : String)
  | emailTaskSpawned (recipient subject body : String)
  deriving DecidableEq

/-- `output_utils.log_response`: try to append the entry; on exception print an
error and return normally. -/
def log_response_event (fault : SinkFaults) (capture_id source response_text : String) :
    SinkEvent :=
  if fault.logWriteFails then .logWriteErrorPrinted source fault.logWriteErr
  else .logWrite (log_response_entry source response_text)

/-- `notification_utils.send_notification`: try to notify; on exception print an
error and return normally. -/
def send_notification_event (fault : SinkFaults) (title message : String) : SinkEvent :=
  if fault.notifyFails then .notifyErrorPrinted fault.notifyErr
  else .notifySent title message

/-- Ellipsis appended to a truncated notification preview. -/
def NOTIFY_TRUNC_TAIL : String := "..."

/-- Notification preview:
`response_text[:200] + "..." if len(response_text) > 200 else response_text`. -/
def truncate_for_notification (response_text : String) : String :=
  if 200 < response_text.data.length then pyTake 200 response_text ++ NOTIFY_TRUNC_TAIL
  else response_text

/-- Subject line used for both the notification and the email. -/
def result_subject (model_name capture_id : String) : String :=
  "AI Response from " ++ model_name ++ " (Capture " ++ capture_id ++ ")"

/-- Placeholder when the original sample is missing from the table. -/
def SCRAPED_UNAVAILABLE : String := "Scraped text not available."

/-- Email body assembled in `handle_results`. -/
def email_body (capture_id scraped model_name response_text : String) : String :=
  "Captured Text for ID " ++ capture_id ++ ":\n---\n" ++ scraped
    ++ "\n---\nResponse from " ++ model_name ++ ":\n---\n" ++ response_text ++ "\n---"

/-- One iteration of the `while True` body of `core_loop.handle_results` for the
dequeued record `r`: console echo, log write (internally caught), optional
notification (internally caught), optional detached email task. -/
def process_one_result (cfg : SinkConfig) (fault : SinkFaults)
    (capture_scraped_text : List (String × String)) (r : ResultRecord) : List SinkEvent :=
  [SinkEvent.consoleEcho r.providerId r.text]
    ++ [log_response_event fault r.captureId r.providerId r.text]
    ++ (if cfg.notify_enabled then
          [send_notification_event fault (result_subject r.providerId r.captureId)
            (truncate_for_notification r.text)]
        else [])
    ++ (if cfg.email_enabled && pyTruthy cfg.email_recipient then
          [SinkEvent.emailTaskSpawned cfg.email_recipient
            (result_subject r.providerId r.captureId)
            (email_body r.captureId
              ((capture_scraped_text.lookup r.captureId).getD SCRAPED_UNAVAILABLE)
              r.providerId r.text)]
        else [])

/-- `core_loop.handle_results` draining a queue: the per-record faults are given
by `faults`, and the consumer processes every queued record in order. -/
def handle_results (cfg : SinkConfig) (faults : ResultRecord → SinkFaults)
    (capture_scraped_text : List (String × String))
    (queue : List ResultRecord) : List (List SinkEvent) :=
  queue.map (fun r => process_one_result cfg (faults r) capture_scraped_text r)

end ScreenScrapper

namespace ScreenScrapper

/-! ### Helper lemmas -/

theorem handle_ai_response_eq_append (m cid : String) (q : List ResultRecord)
    (t : TaskOutcome) : handle_ai_response m cid q t = q ++ [mkRecord m cid t] := by
  cases t <;> rfl

theorem mkRecord_providerId (m cid : String) (t : TaskOutcome) :
    (mkRecord m cid t).providerId = m := by
  cases t <;> rfl

theorem mkRecord_captureId (m cid : String) (t : TaskOutcome) :
    (mkRecord m cid t).captureId = cid := by
  cases t <;> rfl

theorem enqueue_results_eq (cid : String) (inv : List String)
    (outcome : String → TaskOutcome) (q : List ResultRecord) :
    enqueue_results cid inv outcome q
      = q ++ inv.map (fun m => mkRecord m cid (outcome m)) := by
  induction inv generalizing q with
  | nil => simp [enqueue_results]
  | cons m rest ih =>
    simp only [enqueue_results, List.foldl_cons, List.map_cons]
    rw [show List.foldl (fun acc m => handle_ai_response m cid acc (outcome m))
          (handle_ai_response m cid q (outcome m)) rest
        = enqueue_results cid rest outcome (handle_ai_response m cid q (outcome m)) from rfl]
    rw [ih, handle_ai_response_eq_append]
    simp

theorem dispatchLoop_fst (l : List String) :
    (dispatchLoop l).1 = l.filter (fun m => AI_CLIENTS_names.contains m) := by
  induction l with
  | nil => rfl
  | cons m rest ih =>
    simp only [dispatchLoop, List.filter_cons]
    by_cases h : m ∈ AI_CLIENTS_names
    · simp [h, ih]
    · simp [h, ih]

theorem dispatchLoop_snd (l : List String) :
    (dispatchLoop l).2 = l.filter (fun m => !(AI_CLIENTS_names.contains m)) := by
  induction l with
  | nil => rfl
  | cons m rest ih =>
    simp only [dispatchLoop, List.filter_cons]
    by_cases h : m ∈ AI_CLIENTS_names
    · simp [h, ih]
    · simp [h, ih]

theorem record_count_per_provider (l : List String) (cid : String)
    (outcome : String → TaskOutcome) (m : String) :
    ((l.map (fun m' => mkRecord m' cid (outcome m'))).filter
        (fun r => r.providerId == m)).length = l.count m := by
  rw [(List.countP_eq_length_filter _ _).symm, List.countP_map]
  have : ((fun r : ResultRecord => r.providerId == m)
      ∘ fun m' => mkRecord m' cid (outcome m')) = fun m' => m' == m := by
    funext m'
    simp [Function.comp, mkRecord_providerId]
  rw [this]
  rfl

/-! ### Claim theorems -/

/-- C7: from two click points `(x1, y1)` then `(x2, y2)` the normalized capture
region is `{top: min(y1,y2), left: min(x1,x2), width: max(1,|x2-x1|),
height: max(1,|y2-y1|)}`; clicks at `(50,50)` then `(10,10)` give
`{top:10,left:10,width:40,height:40}` and clicks at `(10,10)` then `(10,15)`
give `{top:10,left:10,width:1,height:5}`. -/
theorem region_normalization (x1 y1 x2 y2 : Int) :
    get_screen_region x1 y1 x2 y2
        = ⟨min y1 y2, min x1 x2, max 1 |x2 - x1|, max 1 |y2 - y1|⟩
    ∧ get_screen_region 50 50 10 10 = ⟨10, 10, 40, 40⟩
    ∧ get_screen_region 10 10 10 15 = ⟨10, 10, 1, 5⟩ :=
  ⟨rfl, by decide, by decide⟩

/-- C4: each loop iteration sleeps `max(0, interval - elapsed)`; the sleep is
zero together with an emitted overrun warning exactly when `elapsed ≥ interval`,
otherwise the sleep is exactly the remaining `interval - elapsed` with no
warning; and the loop performs exactly one capture per iteration (the trace has
one entry per elapsed time, so no catch-up queue ever forms). -/
theorem tick_sleep_and_overrun (interval elapsed : ℚ) (elapsedTimes : List ℚ) :
    sleep_duration interval elapsed = max 0 (interval - elapsed)
    ∧ (interval ≤ elapsed →
        sleep_duration interval elapsed = 0 ∧ overrun_warned interval elapsed = true)
    ∧ (elapsed < interval →
        sleep_duration interval elapsed = interval - elapsed
        ∧ overrun_warned interval elapsed = false)
    ∧ (capture_loop_trace interval elapsedTimes).length = elapsedTimes.length := by
  refine ⟨rfl, ?_, ?_, by simp [capture_loop_trace]⟩
  · intro h
    have hz : sleep_duration interval elapsed = 0 := by
      simp only [sleep_duration]
      exact max_eq_left (by linarith)
    refine ⟨hz, ?_⟩
    simp [overrun_warned, hz]
  · intro h
    have hpos : (0 : ℚ) < interval - elapsed := by linarith
    have hs : sleep_duration interval elapsed = interval - elapsed := by
      simp only [sleep_duration]
      exact max_eq_right (le_of_lt hpos)
    refine ⟨hs, ?_⟩
    simp [overrun_warned, hs, hpos]

/-- Witness for C4 at the spec's example inputs: a 25-second tick against a
20-second interval sleeps 0 and warns; a 5-second tick sleeps exactly 15. -/
theorem tick_sleep_and_overrun_witness :
    (sleep_duration 20 25 = 0 ∧ overrun_warned 20 25 = true)
    ∧ (sleep_duration 20 5 = 20 - 5 ∧ overrun_warned 20 5 = false) :=
  ⟨(tick_sleep_and_overrun 20 25 []).2.1 (by norm_num),
   (tick_sleep_and_overrun 20 5 []).2.2.1 (by norm_num)⟩


/-- C2: when the Gemini call exceeds its 45-second timeout, the client returns
the timeout message, the completion callback enqueues exactly one record for
that `(CaptureId, "gemini")` pair (the new queue is the old queue plus one
record — never zero, never two), and the timeout cause is distinguishable from
the missing-key, safety-block and generic-exception messages. -/
theorem timeout_single_tagged_record (capture_id : String) (q : List ResultRecord) :
    gemini_timeout_seconds = 45
    ∧ get_gemini_response true GeminiApi.timedOut = GEMINI_TIMEOUT_MSG
    ∧ handle_ai_response ("gemini") capture_id q
        (.success (get_gemini_response true GeminiApi.timedOut))
        = q ++ [⟨capture_id, "gemini", GEMINI_TIMEOUT_MSG⟩]
    ∧ GEMINI_TIMEOUT_MSG ≠ GEMINI_KEY_MISSING_MSG
    ∧ GEMINI_TIMEOUT_MSG ≠ GEMINI_BLOCKED_MSG
    ∧ (∀ tyName msg : String,
        GEMINI_TIMEOUT_MSG ≠ get_gemini_response true (.raised tyName msg)) := by
  refine ⟨rfl, rfl, rfl, by decide, by decide, ?_⟩
  intro tyName msg h
  have hr : get_gemini_response true (.raised tyName msg)
      = GEMINI_ERROR_HEAD ++ tyName ++ ": " ++ msg := rfl
  rw [hr] at h
  have hcount := congrArg (fun s => s.data.count ':') h
  simp only [String.data_append, List.count_append] at hcount
  have h1 : (GEMINI_TIMEOUT_MSG.data.count ':') = 1 := by decide
  have h2 : (GEMINI_ERROR_HEAD.data.count ':') = 1 := by decide
  have h3 : ((": ").data.count ':') = 1 := by decide
  rw [h1, h2, h3] at hcount
  omega

/-- C3: a candidates response whose trimmed text equals the sentinel
`NO_QUESTION_DETECTED` produces the distinguished no-question message, which is
never of the `Gemini Answer:` form; any other trimmed response is delivered as
the answer outcome `Gemini Answer:\n<trimmed text>`. -/
theorem sentinel_never_answer (joined : String) :
    (pyStrip joined = NO_QUESTION_SENTINEL →
      get_gemini_response true (.candidates joined) = GEMINI_NO_QUESTION_MSG
      ∧ ∀ t : String, get_gemini_response true (.candidates joined) ≠ GEMINI_ANSWER_HEAD ++ t)
    ∧ (pyStrip joined ≠ NO_QUESTION_SENTINEL →
      get_gemini_response true (.candidates joined) = GEMINI_ANSWER_HEAD ++ pyStrip joined) := by
  constructor
  · intro hs
    have he : get_gemini_response true (.candidates joined) = GEMINI_NO_QUESTION_MSG := by
      simp [get_gemini_response, hs]
    refine ⟨he, ?_⟩
    intro t heq
    rw [he] at heq
    have h1 : GEMINI_ANSWER_HEAD.data <+: (GEMINI_ANSWER_HEAD ++ t).data := by
      rw [String.data_append]
      exact List.prefix_append _ _
    rw [← heq] at h1
    exact absurd h1 (by decide)
  · intro hs
    simp [get_gemini_response, hs]

/-- Witness for C3: the sentinel surrounded by whitespace is normalized into the
no-question message, and an ordinary response is wrapped as an answer. -/
theorem sentinel_never_answer_witness :
    get_gemini_response true (.candidates ("  NO_QUESTION_DETECTED\n"))
        = GEMINI_NO_QUESTION_MSG
    ∧ get_gemini_response true (.candidates ("4"))
        = GEMINI_ANSWER_HEAD ++ pyStrip ("4") :=
  ⟨((sentinel_never_answer ("  NO_QUESTION_DETECTED\n")).1 (by decide)).1,
   (sentinel_never_answer ("4")).2 (by decide)⟩


/-- C1: for a tick whose sample is neither empty nor error-marked, exactly the
known requested providers get an invocation, every completed invocation appends
exactly one record to the results queue (the final queue is the initial queue
plus one record per invocation, for any completion outcomes), per provider the
number of new records equals the number of invocations of that provider, every
new record carries this tick's capture id, and — since the startup code only
enables names that are `AI_CLIENTS` keys — the number of records for the
capture id equals the number of enabled providers. -/
theorem tick_record_conservation (capture_id scraped : String) (models : List String)
    (outcome : String → TaskOutcome) (q : List ResultRecord)
    (hsample : skip_condition scraped = false) :
    (process_capture capture_id models scraped).invocations = (dispatchLoop models).1
    ∧ enqueue_results capture_id (dispatchLoop models).1 outcome q
        = q ++ (dispatchLoop models).1.map (fun m => mkRecord m capture_id (outcome m))
    ∧ (enqueue_results capture_id (dispatchLoop models).1 outcome q).length
        = q.length + (dispatchLoop models).1.length
    ∧ (∀ m : String,
        (((dispatchLoop models).1.map (fun n => mkRecord n capture_id (outcome n))).filter
          (fun r => r.providerId == m)).length = (dispatchLoop models).1.count m)
    ∧ (∀ r ∈ (dispatchLoop models).1.map (fun m => mkRecord m capture_id (outcome m)),
        r.captureId = capture_id)
    ∧ ((∀ m ∈ models, AI_CLIENTS_names.contains m = true) →
        (dispatchLoop models).1.length = models.length) := by
  refine ⟨?_, enqueue_results_eq _ _ _ _, ?_, ?_, ?_, ?_⟩
  · simp [process_capture, hsample]
  · rw [enqueue_results_eq]
    simp
  · intro m
    exact record_count_per_provider _ _ _ _
  · intro r hr
    obtain ⟨m, _, rfl⟩ := List.mem_map.mp hr
    exact mkRecord_captureId _ _ _
  · intro hall
    rw [dispatchLoop_fst]
    rw [List.filter_length_eq_length.mpr ?_]
    intro m hm
    exact hall m hm

/-- Witness for C1 at a concrete tick: a non-error sample with the two enabled
providers `gemini` and `chatgpt` yields exactly two enqueued records. -/
theorem tick_record_conservation_witness :
    (enqueue_results ("cap1") (dispatchLoop ["gemini", "chatgpt"]).1
        (fun _ => TaskOutcome.success ("ok")) []).length
      = ([] : List ResultRecord).length + (dispatchLoop ["gemini", "chatgpt"]).1.length
    ∧ (dispatchLoop ["gemini", "chatgpt"]).1.length
      = (["gemini", "chatgpt"] : List String).length :=
  ⟨(tick_record_conservation ("cap1") ("What is 2+2?") ["gemini", "chatgpt"]
      (fun _ => TaskOutcome.success ("ok")) [] (by decide)).2.2.1,
   (tick_record_conservation ("cap1") ("What is 2+2?") ["gemini", "chatgpt"]
      (fun _ => TaskOutcome.success ("ok")) [] (by decide)).2.2.2.2.2 (by decide)⟩

/-- C10: a requested name that is not an `AI_CLIENTS` key starts no invocation
and contributes no record in that tick — it is only collected among the warned
names — so the records for a capture id count only the known requested
providers. -/
theorem unknown_model_no_record (capture_id : String) (models : List String)
    (outcome : String → TaskOutcome) (m : String)
    (hunk : AI_CLIENTS_names.contains m = false) :
    (dispatchLoop models).1.count m = 0
    ∧ (m ∈ models → m ∈ (dispatchLoop models).2)
    ∧ (((dispatchLoop models).1.map (fun n => mkRecord n capture_id (outcome n))).filter
        (fun r => r.providerId == m)).length = 0
    ∧ (dispatchLoop models).1.length
        = (models.filter (fun n => AI_CLIENTS_names.contains n)).length := by
  have hmem : m ∉ (dispatchLoop models).1 := by
    rw [dispatchLoop_fst]
    intro hin
    have := List.of_mem_filter hin
    rw [hunk] at this
    exact Bool.false_ne_true this
  have hcount : (dispatchLoop models).1.count m = 0 := List.count_eq_zero.mpr hmem
  refine ⟨hcount, ?_, ?_, by rw [dispatchLoop_fst]⟩
  · intro hin
    rw [dispatchLoop_snd]
    exact List.mem_filter.mpr ⟨hin, by rw [hunk]; rfl⟩
  · rw [record_count_per_provider]
    exact hcount

/-- Witness for C10: the unknown name `gpt4` is warned about, gets no
invocation and no record, while the known name `gemini` still gets its one. -/
theorem unknown_model_no_record_witness :
    (dispatchLoop ["gemini", "gpt4"]).1.count ("gpt4") = 0
    ∧ ("gpt4") ∈ (dispatchLoop ["gemini", "gpt4"]).2
    ∧ (dispatchLoop ["gemini", "gpt4"]).1.length
        = ((["gemini", "gpt4"] : List String).filter
            (fun n => AI_CLIENTS_names.contains n)).length :=
  ⟨(unknown_model_no_record ("c") ["gemini", "gpt4"]
      (fun _ => TaskOutcome.success ("ok")) ("gpt4") (by decide)).1,
   (unknown_model_no_record ("c") ["gemini", "gpt4"]
      (fun _ => TaskOutcome.success ("ok")) ("gpt4") (by decide)).2.1 (by decide),
   (unknown_model_no_record ("c") ["gemini", "gpt4"]
      (fun _ => TaskOutcome.success ("ok")) ("gpt4") (by decide)).2.2.2⟩


/-- C5: the consumer drains every queued record (one event list per record, in
order), each processed record's event list is its console echo followed by the
completed log-sink call (which returns an event even when the underlying file
write fails, because the failure is caught inside `log_response`) followed by
the remaining sinks — for every sink-fault environment and sink configuration.
Thus no sink failure (log write error, notification error, email error inside
its detached task, or email disabled) can suppress the console echo or the log
sink call for that record, or stop the consumer. -/
theorem sink_failure_isolation (cfg : SinkConfig) (faults : ResultRecord → SinkFaults)
    (table : List (String × String)) (queue : List ResultRecord) :
    (handle_results cfg faults table queue).length = queue.length
    ∧ (∀ r ∈ queue,
        process_one_result cfg (faults r) table r ∈ handle_results cfg faults table queue)
    ∧ (∀ f : SinkFaults, ∀ r : ResultRecord,
        process_one_result cfg f table r
          = SinkEvent.consoleEcho r.providerId r.text
            :: log_response_event f r.captureId r.providerId r.text
            :: ((if cfg.notify_enabled then
                  [send_notification_event f (result_subject r.providerId r.captureId)
                    (truncate_for_notification r.text)]
                else [])
              ++ (if cfg.email_enabled && pyTruthy cfg.email_recipient then
                  [SinkEvent.emailTaskSpawned cfg.email_recipient
                    (result_subject r.providerId r.captureId)
                    (email_body r.captureId
                      ((table.lookup r.captureId).getD SCRAPED_UNAVAILABLE)
                      r.providerId r.text)]
                else []))) := by
  refine ⟨by simp [handle_results], ?_, ?_⟩
  · intro r hr
    exact List.mem_map_of_mem _ hr
  · intro f r
    rfl

/-- Witness for C5: with every fallible sink failing, the consumer still
processes the queued record and its event list still begins with the console
echo and the caught log-sink outcome. -/
theorem sink_failure_isolation_witness :
    (handle_results ⟨true, true, ("x@y.z")⟩
        (fun _ => ⟨true, ("disk full"), true, ("no display")⟩) []
        [⟨("c0"), ("gemini"), ("hi")⟩]).length
      = ([⟨("c0"), ("gemini"), ("hi")⟩] : List ResultRecord).length
    ∧ process_one_result ⟨true, true, ("x@y.z")⟩
        ⟨true, ("disk full"), true, ("no display")⟩ [] ⟨("c0"), ("gemini"), ("hi")⟩
        ∈ handle_results ⟨true, true, ("x@y.z")⟩
            (fun _ => ⟨true, ("disk full"), true, ("no display")⟩) []
            [⟨("c0"), ("gemini"), ("hi")⟩] :=
  ⟨(sink_failure_isolation ⟨true, true, ("x@y.z")⟩
      (fun _ => ⟨true, ("disk full"), true, ("no display")⟩) []
      [⟨("c0"), ("gemini"), ("hi")⟩]).1,
   (sink_failure_isolation ⟨true, true, ("x@y.z")⟩
      (fun _ => ⟨true, ("disk full"), true, ("no display")⟩) []
      [⟨("c0"), ("gemini"), ("hi")⟩]).2.1 _ (List.mem_singleton_self _)⟩

/-- C6 counterexample: the sample cleaned from the legitimate OCR text
`What does OCR Error mean?` is non-empty and is not a capture-error marker (it
does not start with the `OCR Error: ` tag, nor even with `OCR Error`), yet the
dispatcher classifies it as a capture failure and skips provider dispatch,
because `process_capture` tests substring containment of `OCR Error` rather
than the marker tag prefixing the sample. -/
theorem skip_substring_counterexample :
    capture_and_ocr (.ok ("What does OCR Error mean?")) = ("What does OCR Error mean?")
    ∧ pyTruthy ("What does OCR Error mean?") = true
    ∧ OCR_ERROR_TAG.data.isPrefixOf ("What does OCR Error mean?").data = false
    ∧ skip_condition ("What does OCR Error mean?") = true
    ∧ (process_capture ("cid0") ["gemini"] ("What does OCR Error mean?")).invocations
        = [] := by
  refine ⟨by decide, by decide, by decide, by decide, by decide⟩

/-- C6 (amended): provider dispatch is skipped — while the sample is still
stored in the capture table and logged, with `Empty Capture` substituted when
the sample is empty — exactly when the sample is empty or contains the
substring `OCR Error` anywhere; every capture-error marker produced by
`capture_and_ocr` is headed by `OCR Error: ` and is therefore always skipped,
but (per the counterexample) a legitimate non-empty sample containing that
substring is also classified as a capture failure. -/
theorem skip_condition_characterization (s capture_id : String) (models : List String) :
    (skip_condition s = true ↔ (pyTruthy s = false ∨ pyContains OCR_ERROR_TAG s = true))
    ∧ (∀ e : String, skip_condition (OCR_ERROR_MARK ++ e) = true)
    ∧ (∀ raw : String, capture_and_ocr (.err raw) = OCR_ERROR_MARK ++ raw)
    ∧ (skip_condition s = true →
        (process_capture capture_id models s).invocations = []
        ∧ (process_capture capture_id models s).storedSample
            = (capture_id, if pyTruthy s then s else EMPTY_CAPTURE_TEXT)
        ∧ (process_capture capture_id models s).loggedSample
            = (capture_id, if pyTruthy s then s else EMPTY_CAPTURE_TEXT))
    ∧ (skip_condition s = false →
        (process_capture capture_id models s).invocations = (dispatchLoop models).1) := by
  refine ⟨?_, ?_, fun _ => rfl, ?_, ?_⟩
  · constructor
    · intro h
      rcases Bool.or_eq_true_iff.mp h with h | h
      · exact Or.inl (by simpa using h)
      · exact Or.inr h
    · intro h
      rcases h with h | h
      · exact Bool.or_eq_true_iff.mpr (Or.inl (by simp [h]))
      · exact Bool.or_eq_true_iff.mpr (Or.inr h)
  · intro e
    obtain ⟨l⟩ := e
    rfl
  · intro h
    simp [process_capture, h]
  · intro h
    simp [process_capture, h]

/-- Witness for C6 (amended): a genuine OCR failure marker is skipped while an
ordinary sample is dispatched to the enabled provider. -/
theorem skip_condition_characterization_witness :
    skip_condition (OCR_ERROR_MARK ++ ("boom")) = true
    ∧ (process_capture ("cid1") ["gemini"] ("What is 2+2?")).invocations
        = (dispatchLoop ["gemini"]).1 :=
  ⟨(skip_condition_characterization ("x") ("cid1") ["gemini"]).2.1 ("boom"),
   (skip_condition_characterization ("What is 2+2?") ("cid1") ["gemini"]).2.2.2.2
      (by decide)⟩


/-- C8 counterexample: `log_response` does not append exactly
`Response from <providerId>:\n<text>\n---\n` (it prepends a newline), and the
capture block's delimiter line is not followed directly by the sample text
(a `Scraped Text:` label line intervenes), even allowing for a leading newline. -/
theorem log_format_counterexample :
    log_response_entry ("gemini") ("hi") ≠ spec_claimed_response_entry ("gemini") ("hi")
    ∧ log_scraped_text_entry ("c1") ("t1") ("S")
        ≠ "\n" ++ spec_claimed_scraped_block ("c1") ("t1") ("S") :=
  ⟨by decide, by decide⟩

/-- C8 (amended): log writes only append (the previous contents stay a prefix);
each capture cycle appends the delimiter line `--- Capture ID: <id>
(<timestamp>) ---` followed by a `Scraped Text:` label line, then the sample
text, then the `--- Responses ---` marker; and each delivered ResultRecord
appends the claimed record block preceded by one newline:
`\nResponse from <providerId>:\n<text>\n---\n`. -/
theorem log_format_amended (content capture_id timestamp scraped source response : String) :
    content.data <+:
      (append_log content (log_scraped_text_entry capture_id timestamp scraped)).data
    ∧ content.data <+: (append_log content (log_response_entry source response)).data
    ∧ log_response_entry source response = "\n" ++ spec_claimed_response_entry source response
    ∧ log_scraped_text_entry capture_id timestamp scraped
        = ("\n--- Capture ID: " ++ capture_id ++ " (" ++ timestamp ++ ") ---\n"
            ++ "Scraped Text:\n") ++ scraped ++ ("\n" ++ "--- Responses ---") := by
  refine ⟨?_, ?_, ?_, ?_⟩
  · rw [show append_log content (log_scraped_text_entry capture_id timestamp scraped)
        = content ++ log_scraped_text_entry capture_id timestamp scraped from rfl,
      String.data_append]
    exact List.prefix_append _ _
  · rw [show append_log content (log_response_entry source response)
        = content ++ log_response_entry source response from rfl, String.data_append]
    exact List.prefix_append _ _
  · obtain ⟨ls⟩ := source
    obtain ⟨lr⟩ := response
    rfl
  · exact String.append_assoc _ _ _

/-- Fixed-width rendering has the expected length. -/
theorem padDigits_length (w : Nat) : ∀ n, (padDigits w n).length = w := by
  induction w with
  | zero => intro n; rfl
  | succ w ih => intro n; simp [padDigits, ih]

/-- Decimal digit characters are ordered like their digits. -/
theorem digitChar_lt_digitChar :
    ∀ b, b < 10 → ∀ a, a < b → Nat.digitChar a < Nat.digitChar b := by decide

/-- Fixed-width zero-padded decimal renderings of numbers below `10 ^ w` are
lexicographically ordered like the numbers. -/
theorem padDigits_lex (w : Nat) : ∀ m n : Nat, m < n → n < 10 ^ w →
    List.Lex (· < ·) (padDigits w m) (padDigits w n) := by
  induction w with
  | zero =>
    intro m n hmn hn
    exact absurd hmn (by omega)
  | succ w ih =>
    intro m n hmn hn
    rcases Nat.lt_or_ge (m / 10 ^ w) (n / 10 ^ w) with hd | hd
    · have hnd : n / 10 ^ w < 10 := by
        rw [Nat.div_lt_iff_lt_mul (pow_pos (by norm_num) w)]
        calc n < 10 ^ (w + 1) := hn
          _ = 10 * 10 ^ w := by ring
      exact List.Lex.rel (digitChar_lt_digitChar _ hnd _ hd)
    · have heq : m / 10 ^ w = n / 10 ^ w :=
        Nat.le_antisymm (Nat.div_le_div_right (Nat.le_of_lt hmn)) hd
      have hmod : m % 10 ^ w < n % 10 ^ w := by
        have em := Nat.div_add_mod m (10 ^ w)
        have en := Nat.div_add_mod n (10 ^ w)
        rw [heq] at em
        omega
      have hbound : n % 10 ^ w < 10 ^ w := Nat.mod_lt _ (pow_pos (by norm_num) w)
      show List.Lex (· < ·)
        (Nat.digitChar (m / 10 ^ w) :: padDigits w (m % 10 ^ w))
        (Nat.digitChar (n / 10 ^ w) :: padDigits w (n % 10 ^ w))
      rw [heq]
      exact List.Lex.cons (ih _ _ hmod hbound)

/-- Lexicographic comparison of equal-length lists is preserved when arbitrary
tails are appended to both. -/
theorem lex_append : ∀ {l1 l2 : List Char}, List.Lex (· < ·) l1 l2 →
    ∀ r1 r2 : List Char, l1.length = l2.length →
      List.Lex (· < ·) (l1 ++ r1) (l2 ++ r2) := by
  intro l1 l2 h
  induction h with
  | nil =>
    intro r1 r2 hlen
    simp at hlen
  | cons h ih =>
    intro r1 r2 hlen
    exact List.Lex.cons (ih r1 r2 (by simpa using hlen))
  | rel h =>
    intro r1 r2 _
    exact List.Lex.rel h

/-- C9: under the loop's timing model — consecutive ticks are at least one full
interval (hence at least one second) apart, so the 14-digit
`YYYYMMDDHHMMSS` numeral of the later tick is strictly larger — the capture id
minted at the later tick differs from the earlier one and sorts strictly after
it, so capture ids are unique and time-ordered within one process run. -/
theorem captureId_unique_time_ordered (ts1 c1 ts2 c2 : Nat)
    (hts : ts1 < ts2) (hbound : ts2 < 10 ^ 14) :
    mintCaptureId ts1 c1 ≠ mintCaptureId ts2 c2
    ∧ mintCaptureId ts1 c1 < mintCaptureId ts2 c2 := by
  have hlex : List.Lex (· < ·)
      (padDigits 14 ts1 ++ '_' :: percent03d c1)
      (padDigits 14 ts2 ++ '_' :: percent03d c2) :=
    lex_append (padDigits_lex 14 ts1 ts2 hts hbound) _ _
      (by rw [padDigits_length, padDigits_length])
  have hlt : mintCaptureId ts1 c1 < mintCaptureId ts2 c2 := by
    rw [String.lt_iff_toList_lt]
    exact hlex
  exact ⟨ne_of_lt hlt, hlt⟩

/-- Witness for C9 at two concrete consecutive ticks (20-second interval). -/
theorem captureId_unique_time_ordered_witness :
    mintCaptureId 20250101120000 0 ≠ mintCaptureId 20250101120020 1
    ∧ mintCaptureId 20250101120000 0 < mintCaptureId 20250101120020 1 :=
  captureId_unique_time_ordered 20250101120000 0 20250101120020 1
    (by norm_num) (by norm_num)

end ScreenScrapper
